import Mathlib

/-!
Shallow embedding of the TaskFlow recurring scheduled-task processor:
the `task_manager` models (`models.py`), the `TaskProcessor` service
(`services.py`) and the `process_tasks` management command
(`management/commands/process_tasks.py`).

Time is modelled as seconds since an arbitrary epoch (`Nat`); database
rows are lists of records; row `save` is an update-by-primary-key map;
fallible external effects (ORM `create`/`save` raising) are modelled by
explicit failure oracles, so that control flow around `try`/`except`
blocks can be stated and proved.
-/

namespace TaskFlow

/-- Task.Status / ScheduledTask.Status text choices (models.py). The
ScheduledTask variant only uses the first three values. -/
inductive Status where
  | PENDING
  | IN_PROGRESS
  | COMPLETED
  | CANCELLED
  | ON_HOLD
deriving DecidableEq, Repr

/-- Task.Priority / ScheduledTask.Priority text choices (models.py). -/
inductive Priority where
  | LOW
  | MEDIUM
  | HIGH
  | URGENT
deriving DecidableEq, Repr

/-- ScheduledTask.RecurrencePattern text choices (models.py). -/
inductive RecurrencePattern where
  | ONCE
  | DAILY
  | WEEKLY
  | MONTHLY
deriving DecidableEq, Repr

/-- Task row (models.py `Task`). `processing`-irrelevant metadata
(updated_at) is omitted. `board` is `Option` so that the management
command's board-less create can be represented; the model itself
declares the column NOT NULL (no `null=True` on the FK), recorded by
`taskRowSatisfiesBoardNotNull` below. -/
structure Task where
  task_id : Nat
  title : String
  description : String
  status : Status
  priority : Priority
  board : Option Nat
  created_by : Nat
  assigned_to : List Nat
  due_date : Option Nat
  completed_at : Option Nat
  created_at : Nat
deriving DecidableEq, Repr

/-- The Task.board foreign key is declared without `null=True`
(models.py lines 49-55): a persisted Task row must reference a board. -/
def taskRowSatisfiesBoardNotNull (t : Task) : Prop :=
  t.board ≠ none

instance (t : Task) : Decidable (taskRowSatisfiesBoardNotNull t) := by
  unfold taskRowSatisfiesBoardNotNull; infer_instance

/-- ScheduledTask row (models.py `ScheduledTask`). `processing_status`
is kept as the raw integer (0 = pending, 1 = processed, 2 = failed),
as the management command compares and assigns integer literals. -/
structure ScheduledTask where
  scheduled_task_id : Nat
  title : String
  description : String
  status : Status
  priority : Priority
  board : Option Nat
  created_by : Nat
  assigned_to : List Nat
  due_date : Option Nat
  scheduled_time : Nat
  recurrence_pattern : RecurrencePattern
  processing_status : Nat
  failure_reason : Option String
  processed_at : Option Nat
deriving DecidableEq, Repr

/-- Board row (models.py `Board`). -/
structure Board where
  board_id : Nat
  name : String
  description : String
  created_by : Nat
  created_at : Nat
deriving DecidableEq, Repr

/-- AuditLog row (models.py `AuditLog`), restricted to the fields the
processor writes. Metadata is kept as the pair of ids it records. -/
structure AuditLog where
  user : Option Nat
  action_type : String
  description : String
  task_id : Nat
  scheduled_task_id : Nat
  board_id : Nat
deriving DecidableEq, Repr

/-- One tenant's table contents plus a fresh-id counter standing in for
primary-key generation. -/
structure Store where
  boards : List Board
  tasks : List Task
  scheduled : List ScheduledTask
  audits : List AuditLog
  nextId : Nat
deriving DecidableEq, Repr

/-- Task.save override (models.py lines 97-103): auto-set completed_at
when status is COMPLETED and completed_at is unset; clear it whenever
status is not COMPLETED. -/
def taskSave (t : Task) (now : Nat) : Task :=
  if t.status = Status.COMPLETED ∧ t.completed_at = none then
    { t with completed_at := some now }
  else if t.status ≠ Status.COMPLETED then
    { t with completed_at := none }
  else
    t

/-- Seconds in one day, the unit behind `timedelta(days=1)`. -/
def secondsPerDay : Nat := 86400

/-- TaskProcessor.calculate_next_scheduled_time (services.py lines
43-65). `now` is the embedding of `timezone.now()` evaluated at
processing time; the final `return None` of the source is unreachable
because the four patterns are exhaustive. -/
def calculate_next_scheduled_time (scheduled : ScheduledTask) (now : Nat) : Option Nat :=
  if scheduled.recurrence_pattern = RecurrencePattern.ONCE then
    none
  else if scheduled.recurrence_pattern = RecurrencePattern.DAILY then
    some (now + secondsPerDay)
  else if scheduled.recurrence_pattern = RecurrencePattern.WEEKLY then
    some (now + 7 * secondsPerDay)
  else if scheduled.recurrence_pattern = RecurrencePattern.MONTHLY then
    some (now + 30 * secondsPerDay)
  else
    none

/-- The due-task query of the management command (process_tasks.py
lines 25-28): ScheduledTask rows with processing_status = 0 (pending)
and scheduled_time ≤ now. -/
def dueTasksOf (now : Nat) (sts : List ScheduledTask) : List ScheduledTask :=
  sts.filter (fun s => decide (s.processing_status = 0 ∧ s.scheduled_time ≤ now))

/-- Row save for a ScheduledTask: UPDATE by primary key. -/
def updateSched (l : List ScheduledTask) (s : ScheduledTask) : List ScheduledTask :=
  l.map (fun r => if r.scheduled_task_id = s.scheduled_task_id then s else r)

/-- The Task.objects.create call of the management command
(process_tasks.py lines 35-40): only title, description, status and
created_by are taken from the scheduled task; priority, board,
due_date and assignees are left to model defaults (MEDIUM, no board,
no due date, no assignees). `create` runs `Task.save`, so the
completed_at logic applies. -/
def commandCreateTask (s : ScheduledTask) (nid : Nat) (now : Nat) : Task :=
  taskSave
    { task_id := nid
      title := s.title
      description := s.description
      status := s.status
      priority := Priority.MEDIUM
      board := none
      created_by := s.created_by
      assigned_to := []
      due_date := none
      completed_at := none
      created_at := now }
    now

/-- Outcome oracle for the fallible `Task.objects.create` inside the
command's per-item `try`: `none` means the create succeeds, `some e`
means it raises with message `e` (`str(e)`). -/
def CreateOracle := ScheduledTask → Option String

/-- One iteration of the command's per-item loop (process_tasks.py
lines 30-65): on success create the Task, mark the row processed
(processing_status := 1, failure_reason := None) and bump the
processed counter; on an exception mark the row failed
(processing_status := 2, failure_reason := str(e)) and bump the failed
counter. `processed_at` is not touched on either path. -/
def commandStep (oracle : CreateOracle) (now : Nat) (acc : Store × Nat × Nat)
    (s : ScheduledTask) : Store × Nat × Nat :=
  let st := acc.1
  match oracle s with
  | none =>
    let task := commandCreateTask s st.nextId now
    let s1 := { s with processing_status := 1, failure_reason := none }
    ({ st with
        tasks := st.tasks ++ [task]
        scheduled := updateSched st.scheduled s1
        nextId := st.nextId + 1 },
      acc.2.1 + 1, acc.2.2)
  | some e =>
    let s1 := { s with processing_status := 2, failure_reason := some e }
    ({ st with scheduled := updateSched st.scheduled s1 },
      acc.2.1, acc.2.2 + 1)

/-- One tenant's pass of Command.handle (process_tasks.py lines
20-65): evaluate the due-task queryset once, then run the per-item
loop over that snapshot, threading the store and the two counters. -/
def runTenantBatch (oracle : CreateOracle) (now : Nat) (st : Store) :
    Store × Nat × Nat :=
  (dueTasksOf now st.scheduled).foldl (commandStep oracle now) (st, 0, 0)

/-- Command.handle (process_tasks.py lines 12-71): iterate the tenants
(each modelled as its own isolated Store), run the per-tenant batch,
and accumulate the two counters into the summary totals. -/
def handle (oracle : CreateOracle) (now : Nat) (tenants : List Store) :
    List Store × Nat × Nat :=
  tenants.foldl
    (fun acc st =>
      let r := runTenantBatch oracle now st
      (acc.1 ++ [r.1], acc.2.1 + r.2.1, acc.2.2 + r.2.2))
    ([], 0, 0)

/-- The all-successes oracle: no `Task.objects.create` raises. -/
def oracleOk : CreateOracle := fun _ => none

/-- Board.objects.filter(created_by=user).first() as used by the
service fallback (services.py lines 82-84). `.first()` returns the
first row under the model's default ordering, and Board.Meta declares
`ordering = ["name"]` (models.py lines 277-278): the row whose name is
least; among equal names the earliest row is kept. -/
def firstBoardOf (user : Nat) (boards : List Board) : Option Board :=
  (boards.filter (fun b => decide (b.created_by = user))).foldl
    (fun acc b =>
      match acc with
      | none => some b
      | some a => if b.name < a.name then some b else acc)
    none

/-- Failure oracle for the fallible ORM calls inside
TaskProcessor.process_scheduled_task: each field is `none` when the
corresponding call succeeds and `some msg` when it raises with
`str(e) = msg`. `failSave` is the `scheduled.save()` inside the
`except` handler (services.py line 164). -/
structure ServiceOracle where
  taskCreate : Option String
  successorCreate : Option String
  schedSave : Option String
  audit : Option String
  failSave : Option String
deriving DecidableEq, Repr

/-- The oracle under which every ORM call of the service succeeds. -/
def serviceOk : ServiceOracle :=
  { taskCreate := none, successorCreate := none, schedSave := none,
    audit := none, failSave := none }

/-- Tail of the atomic block shared by the recurrent and
non-recurrent paths: `scheduled.save()` (services.py line 137) on the
mutated row, then the committed store (the new Task, the updated row,
any successor) paired with the AuditLog entry the audit step would
write. -/
def serviceCommit (o : ServiceOracle) (st : Store) (boards1 : List Board)
    (task : Task) (sched1 : ScheduledTask) (succs : List ScheduledTask)
    (nid2 : Nat) (bid : Nat) (scheduled : ScheduledTask) :
    Except (String × ScheduledTask) (Store × AuditLog) :=
  match o.schedSave with
  | some e => .error (e, sched1)
  | none =>
    .ok
      ({ boards := boards1
         tasks := st.tasks ++ [task]
         scheduled := updateSched st.scheduled sched1 ++ succs
         audits := st.audits
         nextId := nid2 },
       { user := some scheduled.created_by
         action_type := "TASK_CREATED"
         description := "Task " ++ task.title ++ " created from scheduled task"
         task_id := task.task_id
         scheduled_task_id := scheduled.scheduled_task_id
         board_id := bid })

/-- Steps 1-4 of the `with transaction.atomic()` block of
TaskProcessor.process_scheduled_task (services.py lines 77-137): board
resolution, Task creation with assignee copy, the in-memory status
update, successor creation for recurrence, and `scheduled.save()`.
Returns the updated store (without the audit row) and the AuditLog
entry the audit step would write; on a raise, the error message
together with the in-memory `scheduled` object as mutated so far (the
rollback discards store writes but not attribute assignments already
made on the Python object). The source wraps the task title in single
quotes inside the audit description; the quote characters are elided
here. -/
def serviceAttemptCore (o : ServiceOracle) (now : Nat) (st : Store)
    (scheduled : ScheduledTask) : Except (String × ScheduledTask) (Store × AuditLog) :=
  let bres : Nat × List Board × Nat :=
    match scheduled.board with
    | some bid => (bid, st.boards, st.nextId)
    | none =>
      match firstBoardOf scheduled.created_by st.boards with
      | some b => (b.board_id, st.boards, st.nextId)
      | none =>
        (st.nextId,
          st.boards ++
            [{ board_id := st.nextId
               name := "Default Board"
               description := "Default board for scheduled tasks"
               created_by := scheduled.created_by
               created_at := now }],
          st.nextId + 1)
  let bid := bres.1
  let boards1 := bres.2.1
  let nid1 := bres.2.2
  match o.taskCreate with
  | some e => .error (e, scheduled)
  | none =>
    let task := taskSave
      { task_id := nid1
        title := scheduled.title
        description := scheduled.description
        status := scheduled.status
        priority := scheduled.priority
        board := some bid
        created_by := scheduled.created_by
        assigned_to := scheduled.assigned_to
        due_date := scheduled.due_date
        completed_at := none
        created_at := now } now
    let sched1 := { scheduled with
        processing_status := 1, failure_reason := none, processed_at := some now }
    match calculate_next_scheduled_time sched1 now with
    | none => serviceCommit o st boards1 task sched1 [] (nid1 + 1) bid scheduled
    | some nxt =>
      match o.successorCreate with
      | some e => .error (e, sched1)
      | none =>
        serviceCommit o st boards1 task sched1
          [{ scheduled_task_id := nid1 + 1
             title := scheduled.title
             description := scheduled.description
             status := scheduled.status
             priority := scheduled.priority
             board := some bid
             created_by := scheduled.created_by
             assigned_to := scheduled.assigned_to
             due_date := scheduled.due_date
             scheduled_time := nxt
             recurrence_pattern := scheduled.recurrence_pattern
             processing_status := 0
             failure_reason := none
             processed_at := none }]
          (nid1 + 2) bid scheduled

/-- The full `with transaction.atomic()` block (services.py lines
77-155): the core steps above followed by the audit write, whose own
`try`/`except` (lines 140-155) swallows an audit failure, so it never
surfaces as an `error` and never prevents the commit. -/
def serviceAttempt (o : ServiceOracle) (now : Nat) (st : Store)
    (scheduled : ScheduledTask) : Except (String × ScheduledTask) Store :=
  match serviceAttemptCore o now st scheduled with
  | .error es => .error es
  | .ok r =>
    match o.audit with
    | some _ => .ok r.1
    | none => .ok { r.1 with audits := r.1.audits ++ [r.2] }

/-- TaskProcessor.process_scheduled_task (services.py lines 67-173):
run the atomic attempt; on success return (store, True, None); on a
raise, roll back the store, set the failed status and reason on the
in-memory object and save it (that save's own failure is swallowed,
line 161-168), and return (store, False, str(e)). -/
def process_scheduled_task (o : ServiceOracle) (now : Nat) (st : Store)
    (scheduled : ScheduledTask) : Store × Bool × Option String :=
  match serviceAttempt o now st scheduled with
  | .ok st1 => (st1, true, none)
  | .error es =>
    let schedF := { es.2 with processing_status := 2, failure_reason := some es.1 }
    match o.failSave with
    | some _ => (st, false, some es.1)
    | none => ({ st with scheduled := updateSched st.scheduled schedF }, false, some es.1)

/-- Two in-flight invocations of the management command over the same
tenant: the shared row store plus, per invocation, `none` before its
due-task queryset has been evaluated and `some remaining` afterwards
(the snapshot rows it has not yet processed). The command's queryset
is evaluated once, when its `for` loop starts. -/
structure ConcurrentConfig where
  store : Store
  snapA : Option (List ScheduledTask)
  snapB : Option (List ScheduledTask)
deriving DecidableEq, Repr

/-- Atomic events of the two-invocation interleaving: an invocation
evaluates its due-task queryset, or runs one iteration of its
per-item loop. -/
inductive ConcurrentAction where
  | evalA
  | evalB
  | stepA
  | stepB
deriving DecidableEq, Repr

/-- Interleaving semantics of two concurrent Command.handle runs on
one tenant. The due-set query (process_tasks.py lines 25-28) carries
no select_for_update / skip_locked qualifier, so evaluating it takes
no row locks: each invocation simply snapshots whatever rows currently
match, and per-item processing is `commandStep` against the shared
store. -/
def concurrentStep (oracle : CreateOracle) (now : Nat) (cfg : ConcurrentConfig) :
    ConcurrentAction → ConcurrentConfig
  | ConcurrentAction.evalA =>
    match cfg.snapA with
    | none => { cfg with snapA := some (dueTasksOf now cfg.store.scheduled) }
    | some _ => cfg
  | ConcurrentAction.evalB =>
    match cfg.snapB with
    | none => { cfg with snapB := some (dueTasksOf now cfg.store.scheduled) }
    | some _ => cfg
  | ConcurrentAction.stepA =>
    match cfg.snapA with
    | some (s :: rest) =>
      { cfg with store := (commandStep oracle now (cfg.store, 0, 0) s).1,
                 snapA := some rest }
    | _ => cfg
  | ConcurrentAction.stepB =>
    match cfg.snapB with
    | some (s :: rest) =>
      { cfg with store := (commandStep oracle now (cfg.store, 0, 0) s).1,
                 snapB := some rest }
    | _ => cfg

/-- Run a schedule of interleaved events. -/
def concurrentRun (oracle : CreateOracle) (now : Nat) (cfg : ConcurrentConfig)
    (acts : List ConcurrentAction) : ConcurrentConfig :=
  acts.foldl (concurrentStep oracle now) cfg

/-- A concrete pending, due, non-recurring scheduled task carrying a
board, a priority, a due date and one assignee. -/
def demoSched : ScheduledTask :=
  { scheduled_task_id := 1
    title := "daily standup"
    description := "sync"
    status := Status.PENDING
    priority := Priority.HIGH
    board := some 7
    created_by := 4
    assigned_to := [3]
    due_date := some 999
    scheduled_time := 3
    recurrence_pattern := RecurrencePattern.ONCE
    processing_status := 0
    failure_reason := none
    processed_at := none }

/-- A one-tenant store holding `demoSched` and its board. -/
def demoStore : Store :=
  { boards := [{ board_id := 7, name := "ops", description := "",
                 created_by := 4, created_at := 1 }]
    tasks := []
    scheduled := [demoSched]
    audits := []
    nextId := 100 }

/-- A store with no rows at all. -/
def emptyStore : Store :=
  { boards := [], tasks := [], scheduled := [], audits := [], nextId := 0 }

/-! ## Claims -/

/-- C8: for every Task, immediately after any save (and every create
runs save), completed_at is non-null if and only if the status is
COMPLETED (Task.save, models.py lines 97-103). -/
theorem task_save_completed_at_iff (t : Task) (now : Nat) :
    (taskSave t now).completed_at ≠ none ↔
      (taskSave t now).status = Status.COMPLETED := by
  unfold taskSave
  by_cases h1 : t.status = Status.COMPLETED
  · by_cases h2 : t.completed_at = none <;> simp [h1, h2]
  · simp [h1]

/-- C5: the recurrence calculator applied at processing instant t
returns none for ONCE, t+1 day for DAILY, t+7 days for WEEKLY and
t+30 days for MONTHLY, regardless of every other field of the
scheduled task — in particular regardless of its scheduled_time. -/
theorem recurrence_calculator_spec (s : ScheduledTask) (t : Nat) :
    calculate_next_scheduled_time
        { s with recurrence_pattern := RecurrencePattern.ONCE } t = none
    ∧ calculate_next_scheduled_time
        { s with recurrence_pattern := RecurrencePattern.DAILY } t
        = some (t + secondsPerDay)
    ∧ calculate_next_scheduled_time
        { s with recurrence_pattern := RecurrencePattern.WEEKLY } t
        = some (t + 7 * secondsPerDay)
    ∧ calculate_next_scheduled_time
        { s with recurrence_pattern := RecurrencePattern.MONTHLY } t
        = some (t + 30 * secondsPerDay) :=
  ⟨rfl, rfl, rfl, rfl⟩

/-- C7: within one tenant at time now, the due-task selector returns
exactly the ScheduledTask rows with processing_status = 0 (pending)
and scheduled_time ≤ now, and an empty due set makes the tenant batch
a complete no-op (unchanged store, zero counts, no error). -/
theorem due_selector_exact_and_empty_skip
    (now : Nat) (sts : List ScheduledTask) (s : ScheduledTask)
    (st : Store) (oracle : CreateOracle) :
    (s ∈ dueTasksOf now sts ↔
      s ∈ sts ∧ s.processing_status = 0 ∧ s.scheduled_time ≤ now)
    ∧ (dueTasksOf now st.scheduled = [] →
        runTenantBatch oracle now st = (st, 0, 0)) := by
  constructor
  · simp [dueTasksOf, List.mem_filter]
  · intro h
    simp [runTenantBatch, h]

/-- Witness for C7 at concrete inputs: demoSched is selected at time
10, and the batch over the empty store is a no-op. -/
theorem due_selector_exact_and_empty_skip_witness :
    (demoSched ∈ dueTasksOf 10 [demoSched] ↔
      demoSched ∈ [demoSched] ∧ demoSched.processing_status = 0
        ∧ demoSched.scheduled_time ≤ 10)
    ∧ runTenantBatch oracleOk 10 emptyStore = (emptyStore, 0, 0) :=
  ⟨(due_selector_exact_and_empty_skip 10 [demoSched] demoSched emptyStore oracleOk).1,
   (due_selector_exact_and_empty_skip 10 [demoSched] demoSched emptyStore oracleOk).2 rfl⟩

/-- C2 (code evaluated at the failing input): the batch command's
Task.objects.create (process_tasks.py lines 35-40) copies only title,
description, status and creator; at a due ScheduledTask carrying
priority HIGH, board 7, a due date and one assignee, the created Task
has default priority MEDIUM, no board (violating the Task model's
non-null board column), no due date and no assignees. -/
theorem command_materialization_drops_fields :
    (commandCreateTask demoSched 0 5).priority = Priority.MEDIUM
    ∧ demoSched.priority = Priority.HIGH
    ∧ (commandCreateTask demoSched 0 5).board = none
    ∧ demoSched.board = some 7
    ∧ ¬ taskRowSatisfiesBoardNotNull (commandCreateTask demoSched 0 5)
    ∧ (commandCreateTask demoSched 0 5).due_date = none
    ∧ demoSched.due_date = some 999
    ∧ (commandCreateTask demoSched 0 5).assigned_to = []
    ∧ demoSched.assigned_to = [3]
    ∧ (commandCreateTask demoSched 0 5).title = demoSched.title
    ∧ (commandCreateTask demoSched 0 5).description = demoSched.description
    ∧ (commandCreateTask demoSched 0 5).status = demoSched.status
    ∧ (commandCreateTask demoSched 0 5).created_by = demoSched.created_by := by
  decide

/-- C3 (code evaluated at the failing input): processing demoSched
successfully through the batch command marks it processed and clears
failure_reason but leaves processed_at null, whereas
TaskProcessor.process_scheduled_task on the same input sets
processed_at to the processing instant (10). -/
theorem command_success_leaves_processed_at_null :
    ((runTenantBatch oracleOk 10 demoStore).1.scheduled.map
        ScheduledTask.processing_status = [1])
    ∧ ((runTenantBatch oracleOk 10 demoStore).1.scheduled.map
        ScheduledTask.failure_reason = [none])
    ∧ ((runTenantBatch oracleOk 10 demoStore).1.scheduled.map
        ScheduledTask.processed_at = [none])
    ∧ ((process_scheduled_task serviceOk 10 demoStore demoSched).1.scheduled.map
        ScheduledTask.processed_at = [some 10]) := by
  decide

/-- The row update performed by the command's per-item success path
(process_tasks.py lines 43-45). -/
def markProcessed (s : ScheduledTask) : ScheduledTask :=
  { s with processing_status := 1, failure_reason := none }

/-- The Tasks the command's loop creates for snapshot rows `l`,
allocating ids from `nid`. -/
def commandTasksFrom (now : Nat) : Nat → List ScheduledTask → List Task
  | _, [] => []
  | nid, s :: r => commandCreateTask s nid now :: commandTasksFrom now (nid + 1) r

lemma taskSave_title (t : Task) (now : Nat) : (taskSave t now).title = t.title := by
  unfold taskSave
  by_cases h1 : t.status = Status.COMPLETED ∧ t.completed_at = none
  · simp [h1]
  · by_cases h2 : t.status ≠ Status.COMPLETED <;> simp [h1, h2]

lemma taskSave_board (t : Task) (now : Nat) : (taskSave t now).board = t.board := by
  unfold taskSave
  by_cases h1 : t.status = Status.COMPLETED ∧ t.completed_at = none
  · simp [h1]
  · by_cases h2 : t.status ≠ Status.COMPLETED <;> simp [h1, h2]

lemma commandTasksFrom_titles (now : Nat) (nid : Nat) (l : List ScheduledTask) :
    (commandTasksFrom now nid l).map Task.title = l.map ScheduledTask.title := by
  induction l generalizing nid with
  | nil => rfl
  | cons s r ih =>
    simp [commandTasksFrom, ih, commandCreateTask, taskSave_title]

/-- Unfolded effect of the command's loop under the all-successes
oracle: the store accumulates one new Task per snapshot row, each row
is saved as processed, and the processed counter advances by the
snapshot length. -/
lemma commandFold_ok (now : Nat) (l : List ScheduledTask) (st : Store) (c1 c2 : Nat) :
    l.foldl (commandStep oracleOk now) (st, c1, c2)
      = ({ st with
            tasks := st.tasks ++ commandTasksFrom now st.nextId l
            scheduled := l.foldl
              (fun rows s => updateSched rows (markProcessed s)) st.scheduled
            nextId := st.nextId + l.length },
         c1 + l.length, c2) := by
  induction l generalizing st c1 c2 with
  | nil => simp [commandTasksFrom]
  | cons s r ih =>
    have hstep : commandStep oracleOk now (st, c1, c2) s
        = ({ st with
              tasks := st.tasks ++ [commandCreateTask s st.nextId now]
              scheduled := updateSched st.scheduled (markProcessed s)
              nextId := st.nextId + 1 }, c1 + 1, c2) := rfl
    rw [List.foldl_cons, hstep, ih]
    simp only [commandTasksFrom, List.foldl_cons, List.length_cons,
      List.append_assoc, List.singleton_append, Prod.mk.injEq, Store.mk.injEq,
      true_and, and_true]
    exact ⟨by omega, by omega⟩

/-- The sequence of row saves, viewed per row. -/
def rowAfter (l : List ScheduledTask) (r : ScheduledTask) : ScheduledTask :=
  l.foldl
    (fun r s =>
      if r.scheduled_task_id = s.scheduled_task_id then markProcessed s else r) r

lemma foldl_updateSched_map (l rows : List ScheduledTask) :
    l.foldl (fun rows s => updateSched rows (markProcessed s)) rows
      = rows.map (rowAfter l) := by
  induction l generalizing rows with
  | nil =>
    have h : rowAfter [] = fun r => r := funext fun _ => rfl
    simp [h]
  | cons s t ih =>
    rw [List.foldl_cons, ih]
    simp only [updateSched, List.map_map]
    refine List.map_congr_left fun r _ => ?_
    simp only [Function.comp, rowAfter, List.foldl_cons]
    rfl

lemma rowAfter_not_touched (l : List ScheduledTask) (r : ScheduledTask)
    (h : ∀ s ∈ l, s.scheduled_task_id ≠ r.scheduled_task_id) :
    rowAfter l r = r := by
  induction l with
  | nil => rfl
  | cons s t ih =>
    have hs : ¬ (r.scheduled_task_id = s.scheduled_task_id) :=
      fun he => h s (by simp) he.symm
    simp only [rowAfter, List.foldl_cons, if_neg hs]
    exact ih fun x hx => h x (by simp [hx])

lemma rowAfter_mem (l : List ScheduledTask) (r : ScheduledTask)
    (hmem : r ∈ l) (hnd : (l.map ScheduledTask.scheduled_task_id).Nodup) :
    rowAfter l r = markProcessed r := by
  induction l with
  | nil => cases hmem
  | cons s t ih =>
    rw [List.map_cons, List.nodup_cons] at hnd
    rcases List.mem_cons.mp hmem with rfl | hr
    · simp only [rowAfter, List.foldl_cons, if_pos rfl]
      refine rowAfter_not_touched t (markProcessed r) fun x hx he => ?_
      exact hnd.1 (List.mem_map.mpr ⟨x, hx, he⟩)
    · have hne : ¬ (r.scheduled_task_id = s.scheduled_task_id) := fun he =>
        hnd.1 (List.mem_map.mpr ⟨r, hr, he⟩)
      simp only [rowAfter, List.foldl_cons, if_neg hne]
      exact ih hr hnd.2

/-- Final scheduled rows of one all-successes batch: every pending,
due row is saved as processed; every other row is untouched. Needs
distinct primary keys. -/
lemma scheduled_after_batch (now : Nat) (st : Store)
    (hnd : (st.scheduled.map ScheduledTask.scheduled_task_id).Nodup) :
    (dueTasksOf now st.scheduled).foldl
        (fun rows s => updateSched rows (markProcessed s)) st.scheduled
      = st.scheduled.map (fun r =>
          if r.processing_status = 0 ∧ r.scheduled_time ≤ now then
            markProcessed r
          else r) := by
  rw [foldl_updateSched_map]
  refine List.map_congr_left fun r hr => ?_
  by_cases hp : r.processing_status = 0 ∧ r.scheduled_time ≤ now
  · rw [if_pos hp]
    refine rowAfter_mem _ _ ?_ ?_
    · exact List.mem_filter.mpr ⟨hr, decide_eq_true hp⟩
    · exact List.Nodup.sublist
        ((List.filter_sublist st.scheduled).map ScheduledTask.scheduled_task_id) hnd
  · rw [if_neg hp]
    refine rowAfter_not_touched _ _ fun s hs he => ?_
    have hsmem := List.mem_filter.mp hs
    have heq : s = r :=
      List.inj_on_of_nodup_map hnd hsmem.1 hr he
    exact hp (heq ▸ of_decide_eq_true hsmem.2)

/-- C1 (counterexample): with a single pending, due ScheduledTask and
two concurrent command invocations that both evaluate their due-task
queryset before either processes a row — a legal interleaving, since
the query (process_tasks.py lines 25-28) carries no select_for_update
/ skip_locked claim — both invocations materialize the same row: the
run ends with two Tasks derived from demoSched, not one, and the two
invocations' claimed sets are identical, not disjoint. -/
theorem concurrent_invocations_double_materialize :
    ((concurrentRun oracleOk 10 ⟨demoStore, none, none⟩
        [ConcurrentAction.evalA, ConcurrentAction.evalB,
         ConcurrentAction.stepA, ConcurrentAction.stepB]).store.tasks.map Task.title
      = [demoSched.title, demoSched.title])
    ∧ demoStore.tasks = []
    ∧ demoStore.scheduled = [demoSched]
    ∧ demoSched.processing_status = 0
    ∧ demoSched.scheduled_time ≤ 10 := by
  decide

/-- C1 (amended): the due-set query takes no row locks, so two
concurrent invocations over the same tenant may each materialize the
same due ScheduledTask (see the counterexample); what does hold is
the single-invocation guarantee: one batch run over a tenant whose
scheduled rows have distinct primary keys creates exactly one Task
per due ScheduledTask (in order), drives each due row to the single
terminal state PROCESSED, leaves every other row untouched, and
counts exactly the due rows as processed. -/
theorem single_invocation_materializes_once (now : Nat) (st : Store)
    (hnd : (st.scheduled.map ScheduledTask.scheduled_task_id).Nodup) :
    ((runTenantBatch oracleOk now st).1.tasks.map Task.title
      = st.tasks.map Task.title ++ (dueTasksOf now st.scheduled).map ScheduledTask.title)
    ∧ ((runTenantBatch oracleOk now st).1.scheduled
      = st.scheduled.map (fun r =>
          if r.processing_status = 0 ∧ r.scheduled_time ≤ now then
            markProcessed r
          else r))
    ∧ (runTenantBatch oracleOk now st).2
      = ((dueTasksOf now st.scheduled).length, 0) := by
  unfold runTenantBatch
  rw [commandFold_ok]
  refine ⟨?_, ?_, by simp⟩
  · simp [commandTasksFrom_titles]
  · simpa using scheduled_after_batch now st hnd

/-- Witness for C1's amended theorem at the concrete one-row store. -/
theorem single_invocation_materializes_once_witness :
    ((runTenantBatch oracleOk 10 demoStore).1.tasks.map Task.title
      = demoStore.tasks.map Task.title
        ++ (dueTasksOf 10 demoStore.scheduled).map ScheduledTask.title)
    ∧ ((runTenantBatch oracleOk 10 demoStore).1.scheduled
      = demoStore.scheduled.map (fun r =>
          if r.processing_status = 0 ∧ r.scheduled_time ≤ 10 then
            markProcessed r
          else r))
    ∧ (runTenantBatch oracleOk 10 demoStore).2
      = ((dueTasksOf 10 demoStore.scheduled).length, 0) :=
  single_invocation_materializes_once 10 demoStore (by decide)

/-- Oracle under which exactly the row with the given primary key
fails its Task.objects.create with message `msg`. -/
def failOneOracle (badId : Nat) (msg : String) : CreateOracle :=
  fun s => if s.scheduled_task_id = badId then some msg else none

/-- C4: for any three pending, due ScheduledTasks with distinct
primary keys in one tenant, if materialization of the second raises
with message `msg` (non-empty) and the others succeed, the batch run
completes normally and ends with rows 1 and 3 processed, row 2 failed
carrying `msg` as its failure_reason, and summary counts
(processed, failed) = (2, 1). -/
theorem failure_isolation
    (t1 t2 t3 : ScheduledTask) (bs : List Board) (ts : List Task)
    (as0 : List AuditLog) (n now : Nat) (msg : String)
    (h1 : t1.processing_status = 0) (h1d : t1.scheduled_time ≤ now)
    (h2 : t2.processing_status = 0) (h2d : t2.scheduled_time ≤ now)
    (h3 : t3.processing_status = 0) (h3d : t3.scheduled_time ≤ now)
    (h12 : t1.scheduled_task_id ≠ t2.scheduled_task_id)
    (h13 : t1.scheduled_task_id ≠ t3.scheduled_task_id)
    (h23 : t2.scheduled_task_id ≠ t3.scheduled_task_id)
    (hmsg : msg ≠ "") :
    ((handle (failOneOracle t2.scheduled_task_id msg) now
        [⟨bs, ts, [t1, t2, t3], as0, n⟩]).2 = (2, 1))
    ∧ ((handle (failOneOracle t2.scheduled_task_id msg) now
        [⟨bs, ts, [t1, t2, t3], as0, n⟩]).1.map
          (fun s => s.scheduled.map ScheduledTask.processing_status) = [[1, 2, 1]])
    ∧ ((handle (failOneOracle t2.scheduled_task_id msg) now
        [⟨bs, ts, [t1, t2, t3], as0, n⟩]).1.map
          (fun s => s.scheduled.map ScheduledTask.failure_reason)
        = [[none, some msg, none]])
    ∧ some msg ≠ (none : Option String) ∧ msg ≠ "" := by
  have e12 := Ne.symm h12
  have e13 := Ne.symm h13
  have e23 := Ne.symm h23
  refine ⟨?_, ?_, ?_, by simp, hmsg⟩ <;>
    simp [handle, runTenantBatch, dueTasksOf, commandStep, updateSched,
      markProcessed, failOneOracle, h1, h1d, h2, h2d, h3, h3d,
      h12, h13, h23, e12, e13, e23]

/-- Witness for C4 at concrete rows and message. -/
theorem failure_isolation_witness :
    ((handle (failOneOracle 2 "boom") 10
        [⟨[], [], [demoSched,
            { demoSched with scheduled_task_id := 2 },
            { demoSched with scheduled_task_id := 3 }], [], 0⟩]).2 = (2, 1))
    ∧ ((handle (failOneOracle 2 "boom") 10
        [⟨[], [], [demoSched,
            { demoSched with scheduled_task_id := 2 },
            { demoSched with scheduled_task_id := 3 }], [], 0⟩]).1.map
          (fun s => s.scheduled.map ScheduledTask.processing_status) = [[1, 2, 1]])
    ∧ ((handle (failOneOracle 2 "boom") 10
        [⟨[], [], [demoSched,
            { demoSched with scheduled_task_id := 2 },
            { demoSched with scheduled_task_id := 3 }], [], 0⟩]).1.map
          (fun s => s.scheduled.map ScheduledTask.failure_reason)
        = [[none, some "boom", none]])
    ∧ some "boom" ≠ (none : Option String) ∧ "boom" ≠ "" :=
  failure_isolation demoSched { demoSched with scheduled_task_id := 2 }
    { demoSched with scheduled_task_id := 3 } [] [] [] 0 10 "boom"
    (by decide) (by decide) (by decide) (by decide) (by decide) (by decide)
    (by decide) (by decide) (by decide) (by decide)

/-- Spec comparison definition for the board fallback claim: "the
creator's most recently created board", i.e. the creator's board that
maximizes created_at. This follows the claim's words and is to be
compared with `firstBoardOf`, which the source realizes as `.first()`
under Board.Meta `ordering = ["name"]`. -/
def specMostRecentBoard (user : Nat) (boards : List Board) : Option Board :=
  (boards.filter (fun b => decide (b.created_by = user))).foldl
    (fun acc b =>
      match acc with
      | none => some b
      | some a => if a.created_at < b.created_at then some b else acc)
    none

/-- A board named alphabetically first but created first. -/
def alphaBoard : Board :=
  { board_id := 1, name := "alpha", description := "", created_by := 4, created_at := 5 }

/-- A board named alphabetically last but created most recently. -/
def zetaBoard : Board :=
  { board_id := 2, name := "zeta", description := "", created_by := 4, created_at := 50 }

/-- Store for the board-fallback counterexample: creator 4 owns both
boards, and one board-less due ScheduledTask is pending. -/
def twoBoardStore : Store :=
  { boards := [zetaBoard, alphaBoard]
    tasks := []
    scheduled := [{ demoSched with board := none }]
    audits := []
    nextId := 30 }

/-- C6 (counterexample): creator 4 owns board "alpha" (id 1, created
at 5) and board "zeta" (id 2, created at 50). Materializing a
board-less ScheduledTask lands the new Task on board 1 ("alpha"),
chosen by `.first()` under the Board model's name ordering — not on
board 2 ("zeta"), the most recently created board, as the claim
states. -/
theorem fallback_board_not_most_recent :
    firstBoardOf 4 [zetaBoard, alphaBoard] = some alphaBoard
    ∧ specMostRecentBoard 4 [zetaBoard, alphaBoard] = some zetaBoard
    ∧ alphaBoard.created_at < zetaBoard.created_at
    ∧ ((process_scheduled_task serviceOk 10 twoBoardStore
          { demoSched with board := none }).1.tasks.map Task.board = [some 1])
    ∧ alphaBoard.board_id = 1
    ∧ zetaBoard.board_id = 2 := by
  refine ⟨?_, by decide, by decide, ?_, rfl, rfl⟩
  · simp +decide [firstBoardOf, alphaBoard, zetaBoard]
  · simp +decide [process_scheduled_task, serviceAttempt, serviceAttemptCore, serviceCommit, serviceOk, firstBoardOf,
      calculate_next_scheduled_time, taskSave_board, twoBoardStore, demoSched,
      alphaBoard, zetaBoard, updateSched]

/-- C6 (amended): when a ScheduledTask carries no board,
materialization uses the creator's first board under the Board
model's default name ordering (not the most recently created one); if
the creator has no boards, a board named "Default Board" is created,
and materializing two board-less ScheduledTasks from the same creator
with no existing boards creates exactly one "Default Board": the
second run reuses the board the first run created, so both new Tasks
land on it. -/
theorem default_board_created_once
    (st : Store) (u now1 now2 : Nat) (s1 s2 : ScheduledTask)
    (hb1 : s1.board = none) (hb2 : s2.board = none)
    (hu1 : s1.created_by = u) (hu2 : s2.created_by = u)
    (hnone : st.boards.filter (fun b => decide (b.created_by = u)) = []) :
    (((process_scheduled_task serviceOk now2
        (process_scheduled_task serviceOk now1 st s1).1 s2).1.boards.filter
          (fun b => decide (b.created_by = u))).map Board.name = ["Default Board"])
    ∧ ((process_scheduled_task serviceOk now2
        (process_scheduled_task serviceOk now1 st s1).1 s2).1.boards.length
      = st.boards.length + 1)
    ∧ ((process_scheduled_task serviceOk now2
        (process_scheduled_task serviceOk now1 st s1).1 s2).1.tasks.map Task.board
      = st.tasks.map Task.board ++ [some st.nextId, some st.nextId]) := by
  cases hr1 : s1.recurrence_pattern <;> cases hr2 : s2.recurrence_pattern <;>
    simp [process_scheduled_task, serviceAttempt, serviceAttemptCore, serviceCommit, serviceOk, firstBoardOf,
      calculate_next_scheduled_time, hb1, hb2, hu1, hu2, hnone, hr1, hr2,
      List.filter_append, taskSave_board]

/-- Witness for C6's amended theorem: two board-less copies of
demoSched from creator 4 against the empty store. -/
theorem default_board_created_once_witness :
    (((process_scheduled_task serviceOk 20
        (process_scheduled_task serviceOk 10 emptyStore
          { demoSched with board := none }).1
        { demoSched with board := none, scheduled_task_id := 9 }).1.boards.filter
          (fun b => decide (b.created_by = 4))).map Board.name = ["Default Board"])
    ∧ ((process_scheduled_task serviceOk 20
        (process_scheduled_task serviceOk 10 emptyStore
          { demoSched with board := none }).1
        { demoSched with board := none, scheduled_task_id := 9 }).1.boards.length
      = emptyStore.boards.length + 1)
    ∧ ((process_scheduled_task serviceOk 20
        (process_scheduled_task serviceOk 10 emptyStore
          { demoSched with board := none }).1
        { demoSched with board := none, scheduled_task_id := 9 }).1.tasks.map Task.board
      = emptyStore.tasks.map Task.board
        ++ [some emptyStore.nextId, some emptyStore.nextId]) :=
  default_board_created_once emptyStore 4 10 20
    { demoSched with board := none }
    { demoSched with board := none, scheduled_task_id := 9 }
    rfl rfl rfl rfl rfl

/-- A committed materialization attempt adds exactly one Task row to
the store. -/
lemma serviceAttemptCore_ok_tasks (o : ServiceOracle) (now : Nat) (st : Store)
    (s : ScheduledTask) (r : Store × AuditLog)
    (h : serviceAttemptCore o now st s = Except.ok r) :
    r.1.tasks.length = st.tasks.length + 1 := by
  cases hr : s.recurrence_pattern <;>
    (unfold serviceAttemptCore serviceCommit at h
     revert h
     repeat' split
     all_goals intro h
     all_goals try simp [calculate_next_scheduled_time, hr] at h
     all_goals (rw [← h]; simp))

/-- C9: a failure writing the AuditLog entry during materialization is
swallowed: against any oracle, the run whose audit write raises
returns the same result pair, the same scheduled rows (the terminal
processing_status is unchanged), the same tasks (the materialization
transaction is not rolled back) and the same boards as the run whose
audit write succeeds; only the audit table can differ — so any
orchestrator counting on the result sees identical processed/failed
counts. -/
theorem audit_failure_swallowed
    (o : ServiceOracle) (now : Nat) (st : Store) (s : ScheduledTask) (msg : String) :
    ((process_scheduled_task { o with audit := some msg } now st s).2
      = (process_scheduled_task { o with audit := none } now st s).2)
    ∧ ((process_scheduled_task { o with audit := some msg } now st s).1.scheduled
      = (process_scheduled_task { o with audit := none } now st s).1.scheduled)
    ∧ ((process_scheduled_task { o with audit := some msg } now st s).1.tasks
      = (process_scheduled_task { o with audit := none } now st s).1.tasks)
    ∧ ((process_scheduled_task { o with audit := some msg } now st s).1.boards
      = (process_scheduled_task { o with audit := none } now st s).1.boards) := by
  obtain ⟨otc, osc, oss, oa, ofs⟩ := o
  have hcoreirr : serviceAttemptCore ⟨otc, osc, oss, some msg, ofs⟩ now st s
      = serviceAttemptCore ⟨otc, osc, oss, none, ofs⟩ now st s := rfl
  simp only [process_scheduled_task, serviceAttempt, hcoreirr]
  cases hcore : serviceAttemptCore ⟨otc, osc, oss, none, ofs⟩ now st s with
  | ok r => simp
  | error es => cases ofs <;> simp

/-- C10: TaskProcessor.process_scheduled_task never raises: it returns
(True, None) exactly when materialization commits (the store gains
exactly one Task row), and otherwise (False, message) with the
attempt rolled back (tasks unchanged); when saving the FAILED status
itself raises, the secondary error is swallowed and the original
(False, message) is still returned, the scheduled rows left
untouched. -/
theorem process_result_characterization
    (o : ServiceOracle) (now : Nat) (st : Store) (s : ScheduledTask) :
    ((process_scheduled_task o now st s).2 = (true, none) ↔
      (process_scheduled_task o now st s).1.tasks.length = st.tasks.length + 1)
    ∧ ((process_scheduled_task o now st s).2.1 = false →
        (process_scheduled_task o now st s).2.2 ≠ none
        ∧ (process_scheduled_task o now st s).1.tasks = st.tasks)
    ∧ ((process_scheduled_task o now st s).2.1 = true →
        (process_scheduled_task o now st s).2.2 = none)
    ∧ ((process_scheduled_task o now st s).2.1 = false → o.failSave ≠ none →
        (process_scheduled_task o now st s).1.scheduled = st.scheduled) := by
  cases hcore : serviceAttemptCore o now st s with
  | ok r =>
    have hlen := serviceAttemptCore_ok_tasks o now st s r hcore
    cases ha : o.audit <;>
      simp [process_scheduled_task, serviceAttempt, hcore, ha, hlen]
  | error es =>
    cases hfs : o.failSave <;>
      simp [process_scheduled_task, serviceAttempt, hcore, hfs]

/-- Witness for C10: with every ORM call succeeding at the concrete
store, the result is (True, None), by the characterization. -/
theorem process_result_characterization_witness :
    (process_scheduled_task serviceOk 10 demoStore demoSched).2 = (true, none) :=
  (process_result_characterization serviceOk 10 demoStore demoSched).1.mpr (by decide)

end TaskFlow
